import Mathlib

/-!
Shallow embedding of the asynchronous AI-generation job pipeline of
`app/services/ai_generation_service.py` (class `AIGenerationService`),
together with the schema enums of `app/schemas/ai_generation.py` and the
row shapes of `app/models/template.py` that the service reads and writes.

Machine conventions of the embedding:
- database rows are Lean structures, UUIDs are `Nat` identifiers;
- `datetime.utcnow()` is an explicit `now : Nat` argument; each service
  call receives the clock value at which it runs;
- the external Anthropic call is an explicit `ApiOutcome` argument: either
  the text the model returned (plus token usage) or the exception message
  of a failed call;
- `json.loads` and the fenced-code-block regex are library calls on opaque
  text, so a `ModelResponse` carries, next to the raw text, the outcome of
  each of the two parse attempts the service makes on it;
- a parsed JSON object is modelled by `GenDict`, a record of exactly the
  keys the service reads; an `Option` field is `none` when the key is
  absent from the object;
- Python exceptions are `Except String` with the exception message.
-/

namespace EmailAI

/-- Job status enum `AIJobStatus` of `app/schemas/ai_generation.py`. -/
inductive AIJobStatus where
  | pending
  | processing
  | completed
  | failed
  | cancelled
  deriving DecidableEq, Repr

/-- Job type enum `AIJobType` of `app/schemas/ai_generation.py`. -/
inductive AIJobType where
  | initial_generation
  | revision
  | refinement
  | ab_variant
  | subject_line_test
  | optimization
  deriving DecidableEq, Repr

/-- One element of `generated_content['variants']` as the service reads it:
`variant_id`, `subject_line`, `html_content` and `plain_text_content` are
accessed by indexing (required keys), `preview_text`, `confidence_score`
and `reasoning` through `.get` (optional keys). -/
structure Variant where
  variant_id : Nat
  subject_line : String
  preview_text : Option String := none
  html_content : String
  plain_text_content : String
  confidence_score : Option ℚ := none
  reasoning : Option String := none
  deriving DecidableEq, Repr

/-- One element of a variants array as the workers consume it: `obj` is a
JSON object whose read keys have the shapes every consumer assumes
(numeric `confidence_score` when present); `bad` is any other element — a
string, number, null, array, or an object whose score is non-numeric —
on which the consumption (`.get` in the score comprehension of the
generation and subject-line workers or the summation over it, `[0].get`
in the refinement worker, `v['variant_id']` in the materializer's
generator) raises, with `exc` the message of that exception.  The
underlying Python value is opaque to the embedding, so its exception
behavior is carried as data, like the parse outcomes on raw text. -/
inductive VariantItem where
  | obj (v : Variant)
  | bad (exc : String)
  deriving DecidableEq, Repr

/-- The JSON value stored under the `variants` key: `arr` is a JSON
array; `other` is any non-array value, opaque to the embedding up to what
the workers can observe of it: its Python truthiness (the
`.get('variants')` guard of the generation and subject-line workers),
`iterExc` the message of the exception raised by iterating it in the
score comprehension, and `indexExc` the message of the exception raised
by `value[0].get(...)` in the refinement worker. -/
inductive VariantsValue where
  | arr (items : List VariantItem)
  | other (truthy : Bool) (iterExc indexExc : String)
  deriving DecidableEq, Repr

/-- A parsed JSON object, restricted to the keys the service reads from a
model response: `variants` (read by `.get` in the generation and
subject-line workers, by key membership in the refinement worker), and the
flat keys the refinement worker copies when it wraps a response that lacks
the `variants` key. A field is `none` when the key is absent.  A response
parsing to a non-object top-level value is outside the model; the flat
keys are typed because no worker can raise on them. -/
structure GenDict where
  variants : Option VariantsValue := none
  subject_line : Option String := none
  preview_text : Option String := none
  html_content : Option String := none
  plain_text_content : Option String := none
  confidence_score : Option ℚ := none
  changes_made : Option String := none
  deriving DecidableEq, Repr

/-- Python truthiness of the `.get('variants')` result (guard before the
confidence computation): a missing key yields `None` (falsy), an array is
truthy exactly when non-empty, any other value by its own truthiness. -/
def variantsTruthy : Option VariantsValue → Bool
  | none => false
  | some (.arr items) => !items.isEmpty
  | some (.other t _ _) => t

/-- The comprehension
`[v.get('confidence_score', default) for v in items]` together with
the summation over it: the list of scores when every element is a
well-shaped object, otherwise the message of the exception raised at the
first bad element (or by the summation). -/
def scoresOf : List VariantItem → ℚ → Except String (List ℚ)
  | [], _ => .ok []
  | .obj v :: rest, d =>
    match scoresOf rest d with
    | .ok s => .ok (v.confidence_score.getD d :: s)
    | .error exc => .error exc
  | .bad exc :: _, _ => .error exc

/-- The score comprehension applied to the raw variants value: iterating
a non-array value raises its iteration exception. -/
def variantScores : VariantsValue → ℚ → Except String (List ℚ)
  | .arr items, d => scoresOf items d
  | .other _ iterExc _, _ => .error iterExc

/-- Token usage reported by the external API
(`response.usage.input_tokens` / `response.usage.output_tokens`). -/
structure ApiUsage where
  input_tokens : Nat
  output_tokens : Nat
  deriving DecidableEq, Repr

/-- The text of a model response (`response.content[0].text`) together
with the results of the two parse attempts the service makes on that
text.  `strictJson` is the result of `json.loads` on the whole text
(`none` when it raises `JSONDecodeError`, which the handler catches).
`fencedJson` describes the fenced-code-block attempt: `none` when the
regex finds no fenced json block, `some (.ok gc)` when it matches and
`json.loads` on the captured body yields an object, and
`some (.error msg)` when it matches but `json.loads` on the body raises
`JSONDecodeError` with message `msg` — that second raise happens inside
the `except` handler and propagates to the worker's outer handler.  All
three are data because they are library calls on opaque text. -/
structure ModelResponse where
  text : String
  strictJson : Option GenDict := none
  fencedJson : Option (Except String GenDict) := none
  deriving Repr

/-- Outcome of the external model call inside a worker's `try` block:
either a response plus usage, or the message of the exception raised by
prompt building / the API call. -/
inductive ApiOutcome where
  | success (resp : ModelResponse) (usage : ApiUsage)
  | failure (msg : String)
  deriving Repr

/-- Objective entry placed into the generation context
(`create_generation_job`, context key `campaign.objectives`). -/
structure ObjectiveCtx where
  description : String
  kpi_name : String
  target_value : ℚ
  deriving DecidableEq, Repr

/-- Campaign part of the generation context (`create_generation_job`,
context key `campaign`). -/
structure CampaignCtx where
  name : String
  description : Option String := none
  primary_goal : String
  target_audience_description : Option String := none
  success_criteria : Option String := none
  objectives : List ObjectiveCtx := []
  deriving DecidableEq, Repr

/-- Company-profile part of the generation context
(`create_generation_job`, context key `company_profile`). -/
structure CompanyProfileCtx where
  brand_voice : Option String := none
  value_propositions : Option (List String) := none
  target_audience : Option String := none
  competitive_advantages : Option (List String) := none
  brand_guidelines : Option String := none
  compliance_requirements : Option String := none
  deriving DecidableEq, Repr

/-- Generation options as dumped into the context
(`AIGenerationOptions.model_dump()` of `app/schemas/ai_generation.py`,
with the schema's defaults). -/
structure GenerationOptionsCtx where
  tone : String := "professional"
  length : String := "medium"
  include_cta : Bool := true
  cta_text : Option String := none
  personalization_level : String := "high"
  variants_count : Nat := 1
  include_preview_text : Bool := true
  temperature : ℚ := 7/10
  focus_areas : Option (List String) := none
  deriving DecidableEq, Repr

/-- Campaign context stored by `generate_subject_line_variants`
(context key `campaign_context`). -/
structure SubjectCampaignCtx where
  primary_goal : String
  target_audience_description : Option String := none
  deriving DecidableEq, Repr

/-- Original-template snapshot stored by `refine_template`
(context key `original_template`). -/
structure OriginalTemplateCtx where
  subject_line : String
  preview_text : Option String := none
  html_content : Option String := none
  plain_text_content : Option String := none
  deriving DecidableEq, Repr

/-- The `context` blob of a job: a record of the top-level keys the
service ever writes or reads, one `Option` field per key, `none` when the
key is absent.  `create_generation_job` fills `campaign`,
`generation_options`, `user_prompt` and (when a profile exists)
`company_profile`; `generate_subject_line_variants` fills `email_content`,
`campaign_context`, `count` and `style`; `refine_template` fills
`original_template`, `refinement_instructions`, `sections_to_change` and
optionally `generation_options`.  Keys of a caller `context_override`
outside this record are not modelled (no claim reads them). -/
structure JobContext where
  campaign : Option CampaignCtx := none
  generation_options : Option GenerationOptionsCtx := none
  user_prompt : Option String := none
  company_profile : Option CompanyProfileCtx := none
  email_content : Option String := none
  campaign_context : Option SubjectCampaignCtx := none
  count : Option Nat := none
  style : Option String := none
  original_template : Option OriginalTemplateCtx := none
  refinement_instructions : Option String := none
  sections_to_change : Option (List String) := none
  deriving DecidableEq, Repr

/-- Row of the `ai_generation_jobs` table as the service reads and writes
it (`app/models/template.py`, class `AIGenerationJob`). -/
structure AIGenerationJob where
  id : Nat
  campaign_id : Nat
  job_type : AIJobType
  status : AIJobStatus
  user_prompt : String
  context : JobContext
  generated_content : Option GenDict := none
  ai_model : Option String := none
  tokens_used : Option Nat := none
  confidence_score : Option ℚ := none
  error_message : Option String := none
  template_id : Option Nat := none
  created_at : Nat
  started_at : Option Nat := none
  completed_at : Option Nat := none
  created_by : Nat
  deriving DecidableEq, Repr

/-- Model identifier set in `AIGenerationService.__init__`. -/
def claudeModel : String := "claude-sonnet-4-20250514"

/-- Temperature lookup
`job.context.get('generation_options', \x7b\x7d).get('temperature', 0.7)`
used by the generation and refinement workers. -/
def contextTemperature (ctx : JobContext) : ℚ :=
  match ctx.generation_options with
  | some opts => opts.temperature
  | none => 7/10

/-- Parse chain of `process_generation_job` (lines 201-222): strict
`json.loads`; on `JSONDecodeError`, the fenced-code-block extraction —
when the regex matches, `json.loads` on the captured body either yields
the object or raises out of the handler (line 209), failing the job with
the `JSONDecodeError` message; only when the regex finds no block at all
is the raw text wrapped into the single fallback variant. -/
def parseGenerationContent (resp : ModelResponse) : Except String GenDict :=
  match resp.strictJson with
  | some gc => .ok gc
  | none =>
    match resp.fencedJson with
    | some (.ok gc) => .ok gc
    | some (.error msg) => .error msg
    | none =>
      .ok { variants := some (.arr [.obj {
          variant_id := 1
          subject_line := "Generated Email"
          preview_text := some ""
          html_content := resp.text
          plain_text_content := resp.text
          confidence_score := some (7/10)
          reasoning := some "Raw AI output" }]) }

/-- Parse chain of `process_refinement_job` (lines 453-461): strict
`json.loads`; on `JSONDecodeError`, the fenced-code-block extraction —
a matching block whose body fails `json.loads` raises with the
`JSONDecodeError` message, and a non-matching text raises
`ValueError("Could not parse AI response as JSON")`. -/
def parseRefinementContent (resp : ModelResponse) : Except String GenDict :=
  match resp.strictJson with
  | some gc => .ok gc
  | none =>
    match resp.fencedJson with
    | some (.ok gc) => .ok gc
    | some (.error msg) => .error msg
    | none => .error "Could not parse AI response as JSON"

/-- Parse chain of `process_subject_line_job` (lines 622-630): strict
`json.loads`; on `JSONDecodeError`, the fenced-code-block extraction —
a matching block whose body fails `json.loads` raises with the
`JSONDecodeError` message, and a non-matching text raises
`ValueError("Could not parse AI response")`. -/
def parseSubjectLineContent (resp : ModelResponse) : Except String GenDict :=
  match resp.strictJson with
  | some gc => .ok gc
  | none =>
    match resp.fencedJson with
    | some (.ok gc) => .ok gc
    | some (.error msg) => .error msg
    | none => .error "Could not parse AI response"

/-- Worker `process_generation_job` acting on a job row it has fetched.
The first commit sets status `processing` and `started_at`; inside the
`try`, a failed API call or a fenced-block body that fails `json.loads`
lands in the `except` branch (status `failed`, `error_message` set before
any output assignment).  A parsed (or fallback-wrapped) object is
assigned together with status `completed`; then, when `.get('variants')`
is truthy, the score comprehension runs — its exception, raised after the
content assignment, sends the already-mutated row through the `except`
branch, committing `failed` with the content still assigned; otherwise
`confidence_score` becomes the mean of the scores (default 0.7 each). -/
def process_generation_job (job : AIGenerationJob) (outcome : ApiOutcome)
    (now : Nat) : AIGenerationJob :=
  let j := { job with status := .processing, started_at := some now }
  match outcome with
  | .failure msg =>
    { j with status := .failed, error_message := some msg,
             completed_at := some now }
  | .success resp usage =>
    match parseGenerationContent resp with
    | .error msg =>
      { j with status := .failed, error_message := some msg,
               completed_at := some now }
    | .ok generated_content =>
      let j := { j with
        generated_content := some generated_content,
        ai_model := some claudeModel,
        tokens_used := some (usage.input_tokens + usage.output_tokens),
        status := .completed,
        completed_at := some now }
      match generated_content.variants with
      | some value =>
        if variantsTruthy (some value) then
          match variantScores value (7/10) with
          | .ok scores =>
            { j with
              confidence_score := some (scores.sum / (scores.length : ℚ)) }
          | .error exc =>
            { j with status := .failed, error_message := some exc,
                     completed_at := some now }
        else j
      | none => j

/-- Wrapping step of `process_refinement_job` (lines 464-475): when the
parsed object has no `variants` key, it is rebuilt as a single-variant
wrapper copying the flat keys with defaults.  A present `variants` key is
kept whatever its value is — the membership test does not inspect it. -/
def wrapRefinementContent (gc : GenDict) : GenDict :=
  match gc.variants with
  | some _ => gc
  | none =>
    { variants := some (.arr [.obj {
        variant_id := 1
        subject_line := gc.subject_line.getD ""
        preview_text := some (gc.preview_text.getD "")
        html_content := gc.html_content.getD ""
        plain_text_content := gc.plain_text_content.getD ""
        confidence_score := some (gc.confidence_score.getD (85/100))
        reasoning := some (gc.changes_made.getD "") }]) }

/-- Worker `process_refinement_job`.  Parsing has no raw-text fallback: a
response that is neither strict JSON nor fenced JSON raises, landing in
the `except` branch (status `failed`), as does a fenced body that fails
`json.loads`.  A parsed object without a `variants` key is wrapped; then
`generated_content`, `ai_model` and `tokens_used` are assigned and
`confidence_score` is read from `generated_content['variants'][0]` with
default 0.85.  That read raises after the content assignments — an empty
list gives `IndexError("list index out of range")`, a malformed first
element or a non-array value its own exception — so the `except` branch
commits a `failed` status together with the already-assigned output
fields.  (The `none` arm below is unreachable: the wrap always leaves a
`variants` key.) -/
def process_refinement_job (job : AIGenerationJob) (outcome : ApiOutcome)
    (now : Nat) : AIGenerationJob :=
  let j := { job with status := .processing, started_at := some now }
  match outcome with
  | .failure msg =>
    { j with status := .failed, error_message := some msg,
             completed_at := some now }
  | .success resp usage =>
    match parseRefinementContent resp with
    | .error msg =>
      { j with status := .failed, error_message := some msg,
               completed_at := some now }
    | .ok gc0 =>
      let generated_content := wrapRefinementContent gc0
      let j := { j with
        generated_content := some generated_content,
        ai_model := some claudeModel,
        tokens_used := some (usage.input_tokens + usage.output_tokens) }
      match generated_content.variants with
      | some (.arr (.obj v :: _)) =>
        { j with
          confidence_score := some (v.confidence_score.getD (85/100))
          status := .completed
          completed_at := some now }
      | some (.arr (.bad exc :: _)) =>
        { j with
          status := .failed
          error_message := some exc
          completed_at := some now }
      | some (.arr []) =>
        { j with
          status := .failed
          error_message := some "list index out of range"
          completed_at := some now }
      | some (.other _ _ indexExc) =>
        { j with
          status := .failed
          error_message := some indexExc
          completed_at := some now }
      | none =>
        { j with
          status := .failed
          error_message := some "list index out of range"
          completed_at := some now }

/-- Worker `process_subject_line_job`.  Parsing raises on failure (job
`failed`), also when a fenced body fails `json.loads`; otherwise output
fields are set with status `completed` and, when `.get('variants')` is
truthy, the score comprehension runs — raising after the content
assignment on a malformed value (the row is committed `failed` with the
content assigned), and otherwise storing the mean of the scores (default
0.8 each). -/
def process_subject_line_job (job : AIGenerationJob) (outcome : ApiOutcome)
    (now : Nat) : AIGenerationJob :=
  let j := { job with status := .processing, started_at := some now }
  match outcome with
  | .failure msg =>
    { j with status := .failed, error_message := some msg,
             completed_at := some now }
  | .success resp usage =>
    match parseSubjectLineContent resp with
    | .error msg =>
      { j with status := .failed, error_message := some msg,
               completed_at := some now }
    | .ok gc =>
      let j := { j with
        generated_content := some gc,
        ai_model := some claudeModel,
        tokens_used := some (usage.input_tokens + usage.output_tokens),
        status := .completed,
        completed_at := some now }
      match gc.variants with
      | some value =>
        if variantsTruthy (some value) then
          match variantScores value (8/10) with
          | .ok scores =>
            { j with
              confidence_score := some (scores.sum / (scores.length : ℚ)) }
          | .error exc =>
            { j with status := .failed, error_message := some exc,
                     completed_at := some now }
        else j
      | none => j

/-- Row of the `campaigns` table, restricted to the columns
`AIGenerationService` reads (`app/models/campaign.py`). -/
structure Campaign where
  id : Nat
  organization_id : Nat
  name : String
  description : Option String := none
  primary_goal : String
  target_audience_description : Option String := none
  success_criteria : Option String := none
  objectives : List ObjectiveCtx := []
  deriving DecidableEq, Repr

/-- Row of the `company_profiles` table, restricted to the columns the
service copies into the context (`app/models/organisation.py`). -/
structure CompanyProfile where
  organization_id : Nat
  brand_voice : Option String := none
  value_propositions : Option (List String) := none
  target_audience : Option String := none
  competitive_advantages : Option (List String) := none
  brand_guidelines : Option String := none
  compliance_requirements : Option String := none
  deriving DecidableEq, Repr

/-- The `ai_metadata` JSON written by `create_template_from_variant`. -/
structure AIMetadata where
  job_id : Nat
  variant_id : Nat
  confidence_score : Option ℚ := none
  reasoning : Option String := none
  temperature : Option ℚ := none
  tokens_used : Option Nat := none
  deriving DecidableEq, Repr

/-- Row of the `email_templates` table, restricted to the columns the
service reads and writes (`app/models/template.py`, class
`EmailTemplate`). -/
structure EmailTemplate where
  id : Nat
  campaign_id : Nat
  version : Nat
  is_current : Bool
  subject_line : String
  preview_text : Option String := none
  html_content : Option String := none
  plain_text_content : Option String := none
  generated_by : String
  ai_model_used : Option String := none
  generation_prompt : Option String := none
  ai_metadata : Option AIMetadata := none
  status : String
  created_by : Nat
  deriving DecidableEq, Repr

/-- The relational store the service talks to, one list per table. -/
structure Database where
  campaigns : List Campaign := []
  company_profiles : List CompanyProfile := []
  jobs : List AIGenerationJob := []
  templates : List EmailTemplate := []
  deriving DecidableEq, Repr

/-- Single-row update of a job by id (the ORM commit of a mutated row). -/
def updateJobRow (db : Database) (job : AIGenerationJob) : Database :=
  { db with jobs := db.jobs.map (fun j => if j.id == job.id then job else j) }

/-- Request body `AIGenerationRequest` of `app/schemas/ai_generation.py`.
The `context_override` carries the modelled top-level keys; a present key
replaces the assembled entry (dict `update` semantics). -/
structure AIGenerationRequest where
  user_prompt : String
  generation_options : GenerationOptionsCtx := {}
  context_override : Option JobContext := none
  deriving DecidableEq, Repr

/-- Request body `AIRefinementRequest` of `app/schemas/ai_generation.py`. -/
structure AIRefinementRequest where
  template_id : Nat
  refinement_instructions : String
  sections_to_change : Option (List String) := none
  generation_options : Option GenerationOptionsCtx := none
  deriving DecidableEq, Repr

/-- Request body `SubjectLineVariantsRequest` of
`app/schemas/ai_generation.py`. -/
structure SubjectLineVariantsRequest where
  template_id : Option Nat := none
  email_content : Option String := none
  count : Nat := 5
  style : Option String := none
  deriving DecidableEq, Repr

/-- Top-level dict update `context.update(generation_request.context_override)`
restricted to the modelled keys: a key present in the override replaces
the assembled entry, the other keys are kept. -/
def updateContext (base override : JobContext) : JobContext :=
  { campaign := override.campaign <|> base.campaign
    generation_options := override.generation_options <|> base.generation_options
    user_prompt := override.user_prompt <|> base.user_prompt
    company_profile := override.company_profile <|> base.company_profile
    email_content := override.email_content <|> base.email_content
    campaign_context := override.campaign_context <|> base.campaign_context
    count := override.count <|> base.count
    style := override.style <|> base.style
    original_template := override.original_template <|> base.original_template
    refinement_instructions := override.refinement_instructions <|> base.refinement_instructions
    sections_to_change := override.sections_to_change <|> base.sections_to_change }

/-- Service method `create_generation_job` (lines 43-137): the campaign is
loaded scoped to the organization and its absence raises
`ValueError("Campaign not found")`; the company profile is loaded but is
optional; the context is assembled, the override merged last, and a
pending job row is inserted. -/
def create_generation_job (db : Database)
    (campaign_id organization_id user_id : Nat)
    (generation_request : AIGenerationRequest)
    (job_type : AIJobType := .initial_generation)
    (new_id now : Nat) :
    Except String (Database × AIGenerationJob) :=
  match db.campaigns.find? (fun c =>
      c.id == campaign_id && c.organization_id == organization_id) with
  | none => .error "Campaign not found"
  | some campaign =>
    let company_profile := db.company_profiles.find? (fun p =>
      p.organization_id == organization_id)
    let context : JobContext :=
      { campaign := some
          { name := campaign.name
            description := campaign.description
            primary_goal := campaign.primary_goal
            target_audience_description := campaign.target_audience_description
            success_criteria := campaign.success_criteria
            objectives := campaign.objectives }
        generation_options := some generation_request.generation_options
        user_prompt := some generation_request.user_prompt
        company_profile := company_profile.map (fun p =>
          { brand_voice := p.brand_voice
            value_propositions := p.value_propositions
            target_audience := p.target_audience
            competitive_advantages := p.competitive_advantages
            brand_guidelines := p.brand_guidelines
            compliance_requirements := p.compliance_requirements }) }
    let context := match generation_request.context_override with
      | some override => updateContext context override
      | none => context
    let job : AIGenerationJob :=
      { id := new_id
        campaign_id := campaign_id
        job_type := job_type
        status := .pending
        user_prompt := generation_request.user_prompt
        context := context
        created_at := now
        created_by := user_id }
    .ok ({ db with jobs := db.jobs ++ [job] }, job)

/-- Service method `refine_template` (lines 337-401): the template is
loaded by (template id, campaign id) and its absence raises
`ValueError("Template not found")`; a pending refinement job is inserted
with the original-content snapshot in its context. -/
def refine_template (db : Database)
    (template_id campaign_id user_id : Nat)
    (refinement_request : AIRefinementRequest)
    (new_id now : Nat) :
    Except String (Database × AIGenerationJob) :=
  match db.templates.find? (fun t =>
      t.id == template_id && t.campaign_id == campaign_id) with
  | none => .error "Template not found"
  | some template =>
    let context : JobContext :=
      { original_template := some
          { subject_line := template.subject_line
            preview_text := template.preview_text
            html_content := template.html_content
            plain_text_content := template.plain_text_content }
        refinement_instructions := some refinement_request.refinement_instructions
        sections_to_change := refinement_request.sections_to_change
        generation_options := refinement_request.generation_options }
    let job : AIGenerationJob :=
      { id := new_id
        campaign_id := campaign_id
        job_type := .refinement
        status := .pending
        user_prompt := refinement_request.refinement_instructions
        context := context
        created_at := now
        created_by := user_id }
    .ok ({ db with jobs := db.jobs ++ [job] }, job)

/-- Service method `generate_subject_line_variants` (lines 497-569).  The
email content comes from the referenced template when `template_id` is
set (staying null when the template is missing or has no HTML), else from
a non-empty `email_content` of the request.  The campaign is loaded
scoped to the organization, and a miss is NOT a NotFound: the context
simply carries a null `campaign_context` and the method proceeds to
insert the pending job.  The commit is subject to the non-nullable
foreign key `ai_generation_jobs.campaign_id → campaigns.id`
(`app/models/template.py`): when no campaign row with that id exists at
all, the commit raises `IntegrityError` and nothing is persisted (message
modelled); when the campaign exists — in particular under another
organization — the insert succeeds. -/
def generate_subject_line_variants (db : Database)
    (campaign_id organization_id user_id : Nat)
    (request_data : SubjectLineVariantsRequest)
    (new_id now : Nat) :
    Except String (Database × AIGenerationJob) :=
  let email_content : Option String :=
    match request_data.template_id with
    | some tid => (db.templates.find? (fun t => t.id == tid)).bind (fun t => t.html_content)
    | none =>
      match request_data.email_content with
      | some s => if s.isEmpty then none else some s
      | none => none
  let campaign := db.campaigns.find? (fun c =>
    c.id == campaign_id && c.organization_id == organization_id)
  let campaign_context : Option SubjectCampaignCtx := campaign.map (fun c =>
    { primary_goal := c.primary_goal
      target_audience_description := c.target_audience_description })
  let context : JobContext :=
    { email_content := email_content
      campaign_context := campaign_context
      count := some request_data.count
      style := request_data.style }
  let job : AIGenerationJob :=
    { id := new_id
      campaign_id := campaign_id
      job_type := .subject_line_test
      status := .pending
      user_prompt := "Generate " ++ toString request_data.count ++ " subject line variants"
      context := context
      created_at := now
      created_by := user_id }
  if db.campaigns.any (fun c => c.id == campaign_id) then
    .ok ({ db with jobs := db.jobs ++ [job] }, job)
  else
    .error "IntegrityError: foreign key constraint on ai_generation_jobs.campaign_id"

/-- Service method `get_generation_job` (lines 656-694): first the
campaign is loaded scoped to the organization; when it is missing or
foreign the method returns `None` without touching the jobs table, so the
result is indistinguishable from a non-existent job id.  Otherwise the job
is loaded by (job id, campaign id). -/
def get_generation_job (db : Database)
    (job_id campaign_id organization_id : Nat) : Option AIGenerationJob :=
  match db.campaigns.find? (fun c =>
      c.id == campaign_id && c.organization_id == organization_id) with
  | none => none
  | some _ =>
    db.jobs.find? (fun j => j.id == job_id && j.campaign_id == campaign_id)

/-- Insertion step for ordering by `created_at` descending (the
`ORDER BY created_at DESC` of `list_generation_jobs`). -/
def insertByCreatedDesc (j : AIGenerationJob) :
    List AIGenerationJob → List AIGenerationJob
  | [] => [j]
  | x :: xs =>
    if x.created_at < j.created_at then j :: x :: xs
    else x :: insertByCreatedDesc j xs

/-- Sort by `created_at` descending. -/
def sortByCreatedDesc (l : List AIGenerationJob) : List AIGenerationJob :=
  l.foldr insertByCreatedDesc []

/-- Service method `list_generation_jobs` (lines 696-748): when the
campaign is missing or foreign it returns `([], 0)` without error;
otherwise it returns the campaign's jobs ordered by `created_at`
descending, skipping `(page - 1) * per_page` rows and limiting to
`per_page`, together with the total count of the campaign's jobs. -/
def list_generation_jobs (db : Database)
    (campaign_id organization_id : Nat)
    (page : Nat := 1) (per_page : Nat := 20) :
    List AIGenerationJob × Nat :=
  match db.campaigns.find? (fun c =>
      c.id == campaign_id && c.organization_id == organization_id) with
  | none => ([], 0)
  | some _ =>
    let campaignJobs := db.jobs.filter (fun j => j.campaign_id == campaign_id)
    let total := campaignJobs.length
    let offset := (page - 1) * per_page
    (((sortByCreatedDesc campaignJobs).drop offset).take per_page, total)

/-- Status guard and mutation of `cancel_job` acting on the fetched row
(lines 772-776): a job that is not pending or processing raises
`ValueError("Can only cancel pending or processing jobs")` before any
mutation; otherwise the row becomes cancelled with `completed_at` set. -/
def cancelJobRow (job : AIGenerationJob) (now : Nat) :
    Except String AIGenerationJob :=
  if job.status = .pending ∨ job.status = .processing then
    .ok { job with status := .cancelled, completed_at := some now }
  else
    .error "Can only cancel pending or processing jobs"

/-- Service method `cancel_job` (lines 750-781): fetch through
`get_generation_job` (`.ok none` when not visible), then the guard and
mutation of `cancelJobRow`; on success the updated row is committed. -/
def cancel_job (db : Database)
    (job_id campaign_id organization_id : Nat) (now : Nat) :
    Except String (Option (Database × AIGenerationJob)) :=
  match get_generation_job db job_id campaign_id organization_id with
  | none => .ok none
  | some job =>
    match cancelJobRow job now with
    | .error msg => .error msg
    | .ok job' => .ok (some (updateJobRow db job', job'))

/-- Which of the three worker entry points of
`app/workers/ai_generation_tasks.py` processes the job. -/
inductive WorkerKind where
  | generation
  | refinement
  | subjectLine
  deriving DecidableEq, Repr

/-- Dispatch from worker kind to the service method it calls. -/
def runWorker : WorkerKind → AIGenerationJob → ApiOutcome → Nat → AIGenerationJob
  | .generation => process_generation_job
  | .refinement => process_refinement_job
  | .subjectLine => process_subject_line_job

/-- An operation applied to an existing job row after creation: a worker
execution with a given external-call outcome, or a client cancellation. -/
inductive JobOp where
  | process (k : WorkerKind) (outcome : ApiOutcome)
  | cancel
  deriving Repr

/-- One operation on a job row, returning the new row and the statuses
committed to the store by the operation, in order.  A worker commits
twice: first `processing`, then the terminal result.  A cancel commits
once on success and not at all when the guard raises. -/
def applyOp (job : AIGenerationJob) (op : JobOp) (now : Nat) :
    AIGenerationJob × List AIJobStatus :=
  match op with
  | .process k outcome =>
    let j' := runWorker k job outcome now
    (j', [.processing, j'.status])
  | .cancel =>
    match cancelJobRow job now with
    | .ok j' => (j', [j'.status])
    | .error _ => (job, [])

/-- Fold of `applyOp` over a sequence of operations, threading the clock. -/
def runOps : AIGenerationJob → List JobOp → Nat → AIGenerationJob × List AIJobStatus
  | job, [], _ => (job, [])
  | job, op :: rest, now =>
    let step := applyOp job op now
    let tail := runOps step.1 rest (now + 1)
    (tail.1, step.2 ++ tail.2)

/-- The statuses a poller can observe for a job across a sequence of
operations: the status at creation, then every committed status. -/
def observedStatuses (job : AIGenerationJob) (ops : List JobOp) (t0 : Nat) :
    List AIJobStatus :=
  job.status :: (runOps job ops t0).2

/-- The prefixes of pending → processing → \x7bcompleted, failed,
cancelled\x7d together with pending → cancelled: the status sequences the
spec's state machine allows a poller to observe. -/
def allowedStatusChains : List (List AIJobStatus) :=
  [[.pending],
   [.pending, .cancelled],
   [.pending, .processing],
   [.pending, .processing, .completed],
   [.pending, .processing, .failed],
   [.pending, .processing, .cancelled]]

/-- A status sequence follows the spec's state machine. -/
def followsStatusChain (l : List AIJobStatus) : Prop :=
  l ∈ allowedStatusChains

instance (l : List AIJobStatus) : Decidable (followsStatusChain l) := by
  unfold followsStatusChain
  infer_instance

/-- Token usage fixture. -/
def sampleUsage : ApiUsage := { input_tokens := 100, output_tokens := 50 }

/-- A model response that is plain prose: neither parse attempt yields a
JSON object. -/
def rawTextResponse : ModelResponse := { text := "Here is your email!" }

/-- A freshly created initial-generation job row. -/
def sampleJob : AIGenerationJob :=
  { id := 1
    campaign_id := 2
    job_type := .initial_generation
    status := .pending
    user_prompt := "Write a launch email"
    context := {}
    created_at := 0
    created_by := 3 }

/-- A freshly created refinement job row. -/
def sampleRefinementJob : AIGenerationJob :=
  { sampleJob with id := 4, job_type := .refinement }

/-- A freshly created subject-line job row. -/
def sampleSubjectJob : AIGenerationJob :=
  { sampleJob with id := 5, job_type := .subject_line_test }

/-! Helper lemmas about the trace model. -/

/-- Every worker execution ends with the job completed or failed. -/
theorem runWorker_status_terminal (k : WorkerKind) (j : AIGenerationJob)
    (o : ApiOutcome) (t : Nat) :
    (runWorker k j o t).status = .completed ∨
      (runWorker k j o t).status = .failed := by
  cases k <;> cases o <;>
    simp only [runWorker, process_generation_job, process_refinement_job,
      process_subject_line_job] <;>
    (repeat' split) <;> simp

/-- Cancelling a job in a terminal state raises before any mutation: no
commit, row unchanged. -/
theorem applyOp_cancel_terminal (j : AIGenerationJob) (t : Nat)
    (h : j.status = .completed ∨ j.status = .failed ∨ j.status = .cancelled) :
    applyOp j .cancel t = (j, []) := by
  rcases h with h | h | h <;> simp [applyOp, cancelJobRow, h]

/-- Cancelling a pending job commits exactly the cancelled row. -/
theorem applyOp_cancel_pending (j : AIGenerationJob) (t : Nat)
    (h : j.status = .pending) :
    applyOp j .cancel t =
      ({ j with status := .cancelled, completed_at := some t },
       [.cancelled]) := by
  simp [applyOp, cancelJobRow, h]

/-- A run of cancel attempts on a terminal job is a no-op with no
commits. -/
theorem runOps_replicate_cancel_terminal (j : AIGenerationJob) (n t : Nat)
    (h : j.status = .completed ∨ j.status = .failed ∨ j.status = .cancelled) :
    runOps j (List.replicate n .cancel) t = (j, []) := by
  induction n generalizing t with
  | zero => simp [runOps]
  | succ m ih =>
    simp [List.replicate_succ, runOps, applyOp_cancel_terminal j t h, ih]

/-- A run of cancel attempts on a pending job: the first one cancels, the
rest raise. -/
theorem runOps_replicate_cancel_pending (j : AIGenerationJob) (n t : Nat)
    (h : j.status = .pending) :
    runOps j (List.replicate n .cancel) t =
      if n = 0 then (j, [])
      else ({ j with status := .cancelled, completed_at := some t },
            [.cancelled]) := by
  cases n with
  | zero => simp [runOps]
  | succ m =>
    rw [List.replicate_succ]
    simp only [runOps, applyOp_cancel_pending j t h]
    rw [runOps_replicate_cancel_terminal _ m (t + 1) (Or.inr (Or.inr rfl))]
    simp

/-- C1 (counterexample): the claim says the refinement worker, like the
generation worker, wraps an unparseable response into a best-effort
variant and completes, never fails.  On a plain-prose response the
refinement worker in fact raises and the job transitions to failed with
no content stored. -/
theorem refinement_raw_text_fails :
    (process_refinement_job sampleRefinementJob
        (.success rawTextResponse sampleUsage) 1).status = .failed ∧
      (process_refinement_job sampleRefinementJob
        (.success rawTextResponse sampleUsage) 1).generated_content = none ∧
      (process_refinement_job sampleRefinementJob
        (.success rawTextResponse sampleUsage) 1).error_message =
        some "Could not parse AI response as JSON" :=
  ⟨rfl, rfl, rfl⟩

/-- C1 (amended): on a model response that is not strict JSON there are
two cases.  When no fenced JSON block matches at all, only the
initial-generation worker synthesizes the single best-effort variant (raw
text as both HTML and plain text, confidence 0.7, reasoning "Raw AI
output") and completes the job, while the refinement and subject-line
workers raise their fixed messages and the job transitions to failed.
When a fenced block matches but `json.loads` on its body raises, that
exception propagates out of the handler and ALL THREE workers fail the
job with the `JSONDecodeError` message — the generation fallback is not
reached. -/
theorem unparseable_response_per_worker (job : AIGenerationJob)
    (resp : ModelResponse) (usage : ApiUsage) (now : Nat)
    (hstrict : resp.strictJson = none) :
    (resp.fencedJson = none →
      (process_generation_job job (.success resp usage) now).status =
        .completed ∧
      (process_generation_job job (.success resp usage) now).generated_content =
        some { variants := some (.arr [.obj {
          variant_id := 1
          subject_line := "Generated Email"
          preview_text := some ""
          html_content := resp.text
          plain_text_content := resp.text
          confidence_score := some (7/10)
          reasoning := some "Raw AI output" }]) } ∧
      (process_generation_job job (.success resp usage) now).confidence_score =
        some (7/10) ∧
      (process_refinement_job job (.success resp usage) now).status = .failed ∧
      (process_refinement_job job (.success resp usage) now).error_message =
        some "Could not parse AI response as JSON" ∧
      (process_subject_line_job job (.success resp usage) now).status =
        .failed ∧
      (process_subject_line_job job (.success resp usage) now).error_message =
        some "Could not parse AI response") ∧
    (∀ msg, resp.fencedJson = some (.error msg) →
      (process_generation_job job (.success resp usage) now).status = .failed ∧
      (process_generation_job job (.success resp usage) now).generated_content =
        job.generated_content ∧
      (process_generation_job job (.success resp usage) now).error_message =
        some msg ∧
      (process_refinement_job job (.success resp usage) now).status = .failed ∧
      (process_refinement_job job (.success resp usage) now).error_message =
        some msg ∧
      (process_subject_line_job job (.success resp usage) now).status =
        .failed ∧
      (process_subject_line_job job (.success resp usage) now).error_message =
        some msg) := by
  constructor
  · intro hfenced
    refine ⟨?_, ?_, ?_, ?_, ?_, ?_, ?_⟩ <;>
      simp [process_generation_job, process_refinement_job,
        process_subject_line_job, parseGenerationContent,
        parseRefinementContent, parseSubjectLineContent, variantsTruthy,
        variantScores, scoresOf, hstrict, hfenced]
  · intro msg hfenced
    refine ⟨?_, ?_, ?_, ?_, ?_, ?_, ?_⟩ <;>
      simp [process_generation_job, process_refinement_job,
        process_subject_line_job, parseGenerationContent,
        parseRefinementContent, parseSubjectLineContent, hstrict, hfenced]

/-- A model response holding a fenced json block whose body is not valid
JSON (for example a trailing comma): the regex matches and the second
`json.loads` raises. -/
def fencedInvalidResponse : ModelResponse :=
  { text := "fenced"
    fencedJson := some (.error "Expecting property name enclosed in double quotes") }

/-- C1 witness. -/
theorem unparseable_response_per_worker_witness :
    rawTextResponse.strictJson = none ∧ rawTextResponse.fencedJson = none ∧
    (process_generation_job sampleJob
      (.success rawTextResponse sampleUsage) 1).status = .completed ∧
    fencedInvalidResponse.strictJson = none ∧
    fencedInvalidResponse.fencedJson =
      some (.error "Expecting property name enclosed in double quotes") ∧
    (process_generation_job sampleJob
      (.success fencedInvalidResponse sampleUsage) 1).status = .failed :=
  ⟨rfl, rfl,
   ((unparseable_response_per_worker sampleJob rawTextResponse
     sampleUsage 1 rfl).1 rfl).1,
   rfl, rfl,
   ((unparseable_response_per_worker sampleJob fencedInvalidResponse
     sampleUsage 1 rfl).2 "Expecting property name enclosed in double quotes"
     rfl).1⟩

/-- C2 (counterexample): the claim says no operation ever moves a job out
of a terminal state.  Cancelling a fresh job and then dispatching the
worker on it yields the observed status sequence pending, cancelled,
processing, completed: the worker moved the job out of the terminal
cancelled state, and the sequence is not a prefix of the allowed
chain. -/
theorem cancel_then_process_escapes_terminal :
    observedStatuses sampleJob
        [JobOp.cancel, JobOp.process .generation
          (.success rawTextResponse sampleUsage)] 0 =
      [.pending, .cancelled, .processing, .completed] ∧
    ¬ followsStatusChain (observedStatuses sampleJob
        [JobOp.cancel, JobOp.process .generation
          (.success rawTextResponse sampleUsage)] 0) := by
  refine ⟨rfl, ?_⟩
  intro hmem
  rw [(rfl : observedStatuses sampleJob
        [JobOp.cancel, JobOp.process .generation
          (.success rawTextResponse sampleUsage)] 0 =
      [.pending, .cancelled, .processing, .completed])] at hmem
  revert hmem
  decide

/-- C2 (amended): the worker entry points reset any fetched job to
processing unconditionally, so status monotonicity holds only for
operation sequences that dispatch the worker at most once and not after a
cancellation: for every such sequence the observed statuses are a prefix
of pending → processing → \x7bcompleted, failed, cancelled\x7d. -/
theorem status_chain_single_dispatch (j : AIGenerationJob)
    (h : j.status = .pending) (ops : List JobOp) (t0 : Nat)
    (hshape : (∃ n, ops = List.replicate n JobOp.cancel) ∨
      (∃ k o n, ops = JobOp.process k o :: List.replicate n JobOp.cancel)) :
    followsStatusChain (observedStatuses j ops t0) := by
  rcases hshape with ⟨n, rfl⟩ | ⟨k, o, n, rfl⟩
  · cases n with
    | zero =>
      have hobs : observedStatuses j (List.replicate 0 JobOp.cancel) t0 =
          [j.status] := rfl
      rw [hobs, h]; decide
    | succ m =>
      have hobs : observedStatuses j (List.replicate (m + 1) JobOp.cancel) t0 =
          [j.status, .cancelled] := by
        rw [observedStatuses, runOps_replicate_cancel_pending j (m + 1) t0 h]
        simp
      rw [hobs, h]; decide
  · have hterm := runWorker_status_terminal k j o t0
    have htail : runOps (runWorker k j o t0)
        (List.replicate n JobOp.cancel) (t0 + 1) = (runWorker k j o t0, []) :=
      runOps_replicate_cancel_terminal _ n _
        (by rcases hterm with h1 | h1 <;> simp [h1])
    rw [observedStatuses]
    simp only [runOps, applyOp, htail, List.append_nil]
    rw [h]
    rcases hterm with h1 | h1 <;> rw [h1] <;> decide

/-- C2 witness. -/
theorem status_chain_single_dispatch_witness :
    sampleJob.status = .pending ∧
    followsStatusChain (observedStatuses sampleJob
      [JobOp.process .generation (.success rawTextResponse sampleUsage)] 0) :=
  ⟨rfl, status_chain_single_dispatch sampleJob rfl _ 0
    (Or.inr ⟨.generation, .success rawTextResponse sampleUsage, 0, rfl⟩)⟩

/-- Variant fixture with a confidence score. -/
def variantOne : Variant :=
  { variant_id := 1
    subject_line := "Try it today"
    preview_text := some "pv"
    html_content := "<p>one</p>"
    plain_text_content := "one"
    confidence_score := some (9/10)
    reasoning := some "benefit led" }

/-- Variant fixture without a confidence score. -/
def variantTwo : Variant :=
  { variant_id := 2
    subject_line := "Question for you"
    html_content := "<p>two</p>"
    plain_text_content := "two" }

/-- A job row that has been completed by the worker. -/
def completedJob : AIGenerationJob :=
  { id := 1
    campaign_id := 2
    job_type := .initial_generation
    status := .completed
    user_prompt := "Write a launch email"
    context := { generation_options := some {} }
    generated_content := some
      { variants := some (.arr [.obj variantOne, .obj variantTwo]) }
    ai_model := some claudeModel
    tokens_used := some 150
    confidence_score := some (4/5)
    created_at := 0
    started_at := some 1
    completed_at := some 2
    created_by := 3 }

/-- Campaign fixture owned by organization 7. -/
def sampleCampaign : Campaign :=
  { id := 2, organization_id := 7, name := "Launch", primary_goal := "signups" }

/-- Existing template row at version 1. -/
def templateV1 : EmailTemplate :=
  { id := 30, campaign_id := 2, version := 1, is_current := true,
    subject_line := "v1", generated_by := "human", status := "draft",
    created_by := 3 }

/-- Existing template row at version 2. -/
def templateV2 : EmailTemplate :=
  { id := 31, campaign_id := 2, version := 2, is_current := false,
    subject_line := "v2", generated_by := "human", status := "draft",
    created_by := 3 }

/-- Store fixture: one campaign of organization 7 with one completed job
and two existing template versions. -/
def sampleDb : Database :=
  { campaigns := [sampleCampaign]
    jobs := [completedJob]
    templates := [templateV1, templateV2] }

/-- C4: cancelling a job in a terminal state raises the invalid-state
error before any mutation — the store row is unmodified — while
cancelling a pending or processing job commits the cancelled status with
the completed timestamp. -/
theorem cancel_job_guard (db : Database)
    (job_id campaign_id organization_id now : Nat) (job : AIGenerationJob)
    (hget : get_generation_job db job_id campaign_id organization_id = some job) :
    ((job.status = .completed ∨ job.status = .failed ∨ job.status = .cancelled) →
      cancel_job db job_id campaign_id organization_id now =
        .error "Can only cancel pending or processing jobs" ∧
      applyOp job .cancel now = (job, [])) ∧
    ((job.status = .pending ∨ job.status = .processing) →
      cancel_job db job_id campaign_id organization_id now =
        .ok (some (updateJobRow db
            { job with status := .cancelled, completed_at := some now },
          { job with status := .cancelled, completed_at := some now }))) := by
  constructor
  · intro hterm
    refine ⟨?_, applyOp_cancel_terminal job now hterm⟩
    simp only [cancel_job, hget]
    rcases hterm with h | h | h <;> simp [cancelJobRow, h]
  · intro hok
    simp only [cancel_job, hget]
    rcases hok with h | h <;> simp [cancelJobRow, h]

/-- C4 witness. -/
theorem cancel_job_guard_witness :
    get_generation_job sampleDb 1 2 7 = some completedJob ∧
    completedJob.status = .completed ∧
    cancel_job sampleDb 1 2 7 9 =
      .error "Can only cancel pending or processing jobs" :=
  ⟨rfl, rfl,
   ((cancel_job_guard sampleDb 1 2 7 9 completedJob rfl).1 (Or.inl rfl)).1⟩

/-- Variant fixture scored 1/5. -/
def variantLow : Variant :=
  { variant_id := 1, subject_line := "A", html_content := "<a>",
    plain_text_content := "a", confidence_score := some (1/5) }

/-- Variant fixture scored 1. -/
def variantHigh : Variant :=
  { variant_id := 2, subject_line := "B", html_content := "<b>",
    plain_text_content := "b", confidence_score := some 1 }

/-- A response carrying two well-formed variants with distinct confidence
scores. -/
def twoVariantResponse : ModelResponse :=
  { text := "json"
    strictJson := some
      { variants := some (.arr [.obj variantLow, .obj variantHigh]) } }

/-- C5 (counterexample): the claim says every completing worker sets the
job confidence to the arithmetic mean of the per-variant scores, with a
0.7 fallback for the initial/refinement family.  The refinement worker in
fact copies the first variant's score (fallback 0.85): on variants scored
1/5 and 1 it stores 1/5, not the mean 3/5. -/
theorem refinement_confidence_not_mean :
    (process_refinement_job sampleRefinementJob
        (.success twoVariantResponse sampleUsage) 1).status = .completed ∧
    (process_refinement_job sampleRefinementJob
        (.success twoVariantResponse sampleUsage) 1).confidence_score =
      some (1/5) ∧
    (1/5 : ℚ) ≠ (1/5 + 1) / 2 := by
  refine ⟨rfl, rfl, by norm_num⟩

/-- The score comprehension over an array of well-formed variant objects
never raises and collects each score with the default. -/
theorem scoresOf_map_obj (l : List Variant) (d : ℚ) :
    scoresOf (l.map VariantItem.obj) d =
      .ok (l.map (fun w => w.confidence_score.getD d)) := by
  induction l with
  | nil => rfl
  | cons v rest ih => simp [scoresOf, ih]

/-- C5 (amended): on an array of well-formed variant objects the
generation worker sets the confidence to the mean of the per-variant
scores with fallback 0.7, the subject-line worker to the mean with
fallback 0.8, but the refinement worker to the FIRST variant's score with
fallback 0.85 — not a mean. -/
theorem confidence_score_rule :
    (∀ (job : AIGenerationJob) (resp : ModelResponse) (usage : ApiUsage)
        (now : Nat) (gc : GenDict) (v : Variant) (vs : List Variant),
      resp.strictJson = some gc →
      gc.variants = some (.arr ((v :: vs).map VariantItem.obj)) →
      (process_generation_job job (.success resp usage) now).confidence_score =
        some ((((v :: vs).map (fun w => w.confidence_score.getD (7/10))).sum) /
          ((v :: vs).length : ℚ))) ∧
    (∀ (job : AIGenerationJob) (resp : ModelResponse) (usage : ApiUsage)
        (now : Nat) (gc : GenDict) (v : Variant) (vs : List Variant),
      resp.strictJson = some gc →
      gc.variants = some (.arr ((v :: vs).map VariantItem.obj)) →
      (process_subject_line_job job (.success resp usage) now).confidence_score =
        some ((((v :: vs).map (fun w => w.confidence_score.getD (8/10))).sum) /
          ((v :: vs).length : ℚ))) ∧
    (∀ (job : AIGenerationJob) (resp : ModelResponse) (usage : ApiUsage)
        (now : Nat) (gc : GenDict) (v : Variant) (rest : List VariantItem),
      resp.strictJson = some gc →
      gc.variants = some (.arr (.obj v :: rest)) →
      (process_refinement_job job (.success resp usage) now).confidence_score =
        some (v.confidence_score.getD (85/100))) := by
  refine ⟨?_, ?_, ?_⟩
  · intro job resp usage now gc v vs hstrict hvars
    simp [process_generation_job, parseGenerationContent, hstrict, hvars,
      variantsTruthy, variantScores, scoresOf, scoresOf_map_obj]
  · intro job resp usage now gc v vs hstrict hvars
    simp [process_subject_line_job, parseSubjectLineContent, hstrict, hvars,
      variantsTruthy, variantScores, scoresOf, scoresOf_map_obj]
  · intro job resp usage now gc v rest hstrict hvars
    simp [process_refinement_job, parseRefinementContent,
      wrapRefinementContent, hstrict, hvars]

/-- C5 witness. -/
theorem confidence_score_rule_witness :
    twoVariantResponse.strictJson =
      some { variants := some (.arr [.obj variantLow, .obj variantHigh]) } ∧
    (process_generation_job sampleJob
        (.success twoVariantResponse sampleUsage) 1).confidence_score =
      some (((1/5 : ℚ) + 1) / 2) ∧
    (process_refinement_job sampleRefinementJob
        (.success twoVariantResponse sampleUsage) 1).confidence_score =
      some (1/5) := by
  refine ⟨rfl, ?_, ?_⟩
  · have h := confidence_score_rule.1 sampleJob twoVariantResponse sampleUsage 1
      _ variantLow [variantHigh] rfl rfl
    rw [h]
    norm_num [variantLow, variantHigh]
  · have h := confidence_score_rule.2.2 sampleRefinementJob twoVariantResponse
      sampleUsage 1 _ variantLow [.obj variantHigh] rfl rfl
    rw [h]
    rfl

/-- Store fixture with no campaigns at all. -/
def emptyDb : Database := {}

/-- Campaign fixture owned by organization 9. -/
def foreignCampaign : Campaign :=
  { id := 2, organization_id := 9, name := "Other", primary_goal := "leads" }

/-- Store fixture whose only campaign belongs to organization 9. -/
def foreignDb : Database := { campaigns := [foreignCampaign] }

/-- The pending subject-line job row that a request from organization 7
against the foreign campaign inserts: the scoped campaign lookup misses,
so the context carries a null campaign_context, but the foreign key is
satisfied and the commit succeeds. -/
def foreignSubjectJob : AIGenerationJob :=
  { id := 10
    campaign_id := 2
    job_type := .subject_line_test
    status := .pending
    user_prompt := "Generate 5 subject line variants"
    context := { email_content := none, campaign_context := none,
                 count := some 5, style := none }
    created_at := 0
    created_by := 3 }

/-- C6 (counterexample): the claim says both creation paths fail with
NotFound when the campaign does not belong to the requesting
organization, with no job created.  The subject-line creation path
performs no ownership check: against a campaign owned by another
organization it inserts a pending job with a null campaign context and
raises nothing. -/
theorem subject_line_creation_foreign_campaign :
    generate_subject_line_variants foreignDb 2 7 3 {} 10 0 =
      .ok ({ foreignDb with jobs := foreignDb.jobs ++ [foreignSubjectJob] },
        foreignSubjectJob) ∧
    foreignSubjectJob.status = .pending ∧
    foreignSubjectJob.context.campaign_context = none :=
  ⟨rfl, rfl, rfl⟩

/-- C6 (amended): initial-generation job creation fails with "Campaign
not found" when the campaign is missing or foreign, and succeeds with a
pending job when the campaign is owned even without a company profile
(profile absence is not an error).  Subject-line creation never raises
NotFound: when the campaign exists but belongs to another organization it
inserts a pending job whose context carries a null campaign_context; only
when no campaign row with that id exists at all does the commit fail —
with the foreign-key IntegrityError, not NotFound — and no job is
persisted. -/
theorem campaign_scope_on_creation :
    (∀ (db : Database) (cid oid uid : Nat) (req : AIGenerationRequest)
        (jt : AIJobType) (nid now : Nat),
      db.campaigns.find? (fun c => c.id == cid && c.organization_id == oid) = none →
      create_generation_job db cid oid uid req jt nid now =
        .error "Campaign not found") ∧
    (∀ (db : Database) (cid oid uid : Nat) (req : AIGenerationRequest)
        (jt : AIJobType) (nid now : Nat) (campaign : Campaign),
      db.campaigns.find? (fun c => c.id == cid && c.organization_id == oid) =
        some campaign →
      db.company_profiles.find? (fun p => p.organization_id == oid) = none →
      req.context_override = none →
      ∃ job, create_generation_job db cid oid uid req jt nid now =
          .ok ({ db with jobs := db.jobs ++ [job] }, job) ∧
        job.status = .pending ∧ job.context.company_profile = none) ∧
    (∀ (db : Database) (cid oid uid : Nat) (req : SubjectLineVariantsRequest)
        (nid now : Nat),
      db.campaigns.find? (fun c => c.id == cid && c.organization_id == oid) = none →
      db.campaigns.any (fun c => c.id == cid) = true →
      ∃ job, generate_subject_line_variants db cid oid uid req nid now =
          .ok ({ db with jobs := db.jobs ++ [job] }, job) ∧
        job.status = .pending ∧ job.context.campaign_context = none) ∧
    (∀ (db : Database) (cid oid uid : Nat) (req : SubjectLineVariantsRequest)
        (nid now : Nat),
      db.campaigns.any (fun c => c.id == cid) = false →
      generate_subject_line_variants db cid oid uid req nid now =
        .error "IntegrityError: foreign key constraint on ai_generation_jobs.campaign_id") := by
  refine ⟨?_, ?_, ?_, ?_⟩
  · intro db cid oid uid req jt nid now h
    simp [create_generation_job, h]
  · intro db cid oid uid req jt nid now campaign hc hp hov
    simp only [create_generation_job, hc, hp, hov]
    exact ⟨_, rfl, rfl, rfl⟩
  · intro db cid oid uid req nid now hfind hany
    simp only [generate_subject_line_variants, hfind, hany, if_true]
    exact ⟨_, rfl, rfl, rfl⟩
  · intro db cid oid uid req nid now hany
    simp [generate_subject_line_variants, hany]

/-- C6 witness. -/
theorem campaign_scope_on_creation_witness :
    (emptyDb.campaigns.find? (fun c => c.id == 2 && c.organization_id == 7) =
      none) ∧
    create_generation_job emptyDb 2 7 3 { user_prompt := "Write it now" }
      .initial_generation 10 0 = .error "Campaign not found" ∧
    (sampleDb.campaigns.find? (fun c => c.id == 2 && c.organization_id == 7) =
      some sampleCampaign) ∧
    (∃ job, create_generation_job sampleDb 2 7 3 { user_prompt := "Write it now" }
        .initial_generation 10 0 =
        .ok ({ sampleDb with jobs := sampleDb.jobs ++ [job] }, job) ∧
      job.status = .pending ∧ job.context.company_profile = none) ∧
    (∃ job, generate_subject_line_variants foreignDb 2 7 3 {} 10 0 =
        .ok ({ foreignDb with jobs := foreignDb.jobs ++ [job] }, job) ∧
      job.status = .pending ∧ job.context.campaign_context = none) ∧
    generate_subject_line_variants emptyDb 2 7 3 {} 10 0 =
      .error "IntegrityError: foreign key constraint on ai_generation_jobs.campaign_id" :=
  ⟨rfl,
   campaign_scope_on_creation.1 emptyDb 2 7 3 _ .initial_generation 10 0 rfl,
   rfl,
   campaign_scope_on_creation.2.1 sampleDb 2 7 3 _ .initial_generation 10 0 _
     rfl rfl rfl,
   campaign_scope_on_creation.2.2.1 foreignDb 2 7 3 {} 10 0 rfl rfl,
   campaign_scope_on_creation.2.2.2 emptyDb 2 7 3 {} 10 0 rfl⟩

/-- C7: fetching a job through a campaign the organization does not own
returns none, and fetching a job id absent from the store returns none —
the two outcomes are the same value, so a foreign caller cannot
distinguish a hidden job from a non-existent one. -/
theorem tenant_isolation_get_job (db : Database)
    (campaign_id organization_id : Nat) :
    (db.campaigns.find? (fun c =>
        c.id == campaign_id && c.organization_id == organization_id) = none →
      ∀ job_id, get_generation_job db job_id campaign_id organization_id = none) ∧
    (∀ job_id, (∀ jb ∈ db.jobs, jb.id ≠ job_id) →
      get_generation_job db job_id campaign_id organization_id = none) := by
  constructor
  · intro h job_id
    simp [get_generation_job, h]
  · intro job_id hmiss
    unfold get_generation_job
    cases hc : db.campaigns.find? (fun c =>
        c.id == campaign_id && c.organization_id == organization_id) with
    | none => rfl
    | some c =>
      rw [List.find?_eq_none]
      intro jb hjb hcontra
      rw [Bool.and_eq_true, beq_iff_eq, beq_iff_eq] at hcontra
      exact hmiss jb hjb hcontra.1

/-- C7 witness. -/
theorem tenant_isolation_get_job_witness :
    (sampleDb.campaigns.find? (fun c =>
      c.id == 2 && c.organization_id == 8) = none) ∧
    get_generation_job sampleDb 1 2 8 = none ∧
    (∀ jb ∈ sampleDb.jobs, jb.id ≠ 99) ∧
    get_generation_job sampleDb 99 2 7 = none :=
  ⟨rfl, (tenant_isolation_get_job sampleDb 2 8).1 rfl 1, by decide,
   (tenant_isolation_get_job sampleDb 2 7).2 99 (by decide)⟩

/-- C9: when the model response parses to a JSON object that has no
variants key, both the generation worker and the subject-line worker
still complete the job, store that object as generated_content, and leave
confidence_score null. -/
theorem missing_variants_completes_without_confidence
    (job : AIGenerationJob) (resp : ModelResponse) (usage : ApiUsage)
    (now : Nat) (gc : GenDict)
    (hconf : job.confidence_score = none)
    (hstrict : resp.strictJson = some gc)
    (hvars : gc.variants = none) :
    ((process_generation_job job (.success resp usage) now).status = .completed ∧
     (process_generation_job job (.success resp usage) now).generated_content =
       some gc ∧
     (process_generation_job job (.success resp usage) now).confidence_score =
       none) ∧
    ((process_subject_line_job job (.success resp usage) now).status = .completed ∧
     (process_subject_line_job job (.success resp usage) now).generated_content =
       some gc ∧
     (process_subject_line_job job (.success resp usage) now).confidence_score =
       none) := by
  refine ⟨⟨?_, ?_, ?_⟩, ⟨?_, ?_, ?_⟩⟩ <;>
    simp [process_generation_job, process_subject_line_job,
      parseGenerationContent, parseSubjectLineContent, hstrict, hvars, hconf]

/-- A model response that parses to a flat object with no variants key. -/
def flatObjectResponse : ModelResponse :=
  { text := "json", strictJson := some { subject_line := some "Standalone" } }

/-- C9 witness. -/
theorem missing_variants_witness :
    sampleJob.confidence_score = none ∧
    flatObjectResponse.strictJson = some { subject_line := some "Standalone" } ∧
    (process_generation_job sampleJob
        (.success flatObjectResponse sampleUsage) 1).status = .completed ∧
    (process_generation_job sampleJob
        (.success flatObjectResponse sampleUsage) 1).confidence_score = none :=
  ⟨rfl, rfl,
   (missing_variants_completes_without_confidence sampleJob flatObjectResponse
     sampleUsage 1 _ rfl rfl rfl).1.1,
   (missing_variants_completes_without_confidence sampleJob flatObjectResponse
     sampleUsage 1 _ rfl rfl rfl).1.2.2⟩

/-- Members of an insertion are the inserted job or members of the
list. -/
theorem mem_insertByCreatedDesc {x j : AIGenerationJob}
    {l : List AIGenerationJob} (h : x ∈ insertByCreatedDesc j l) :
    x = j ∨ x ∈ l := by
  induction l with
  | nil =>
    rw [insertByCreatedDesc] at h
    exact Or.inl (List.mem_singleton.mp h)
  | cons y ys ih =>
    rw [insertByCreatedDesc] at h
    by_cases hc : y.created_at < j.created_at
    · rw [if_pos hc] at h
      rcases List.mem_cons.mp h with h' | h'
      · exact Or.inl h'
      · exact Or.inr h'
    · rw [if_neg hc] at h
      rcases List.mem_cons.mp h with h' | h'
      · exact Or.inr (h' ▸ List.mem_cons_self y ys)
      · rcases ih h' with h'' | h''
        · exact Or.inl h''
        · exact Or.inr (List.mem_cons_of_mem y h'')

/-- Insertion preserves the descending-by-creation-time ordering. -/
theorem pairwise_insertByCreatedDesc (j : AIGenerationJob)
    {l : List AIGenerationJob}
    (h : l.Pairwise (fun a b => b.created_at ≤ a.created_at)) :
    (insertByCreatedDesc j l).Pairwise
      (fun a b => b.created_at ≤ a.created_at) := by
  induction l with
  | nil => simp [insertByCreatedDesc]
  | cons x xs ih =>
    rw [List.pairwise_cons] at h
    obtain ⟨hx, hxs⟩ := h
    rw [insertByCreatedDesc]
    by_cases hc : x.created_at < j.created_at
    · rw [if_pos hc]
      refine List.Pairwise.cons ?_ (List.Pairwise.cons hx hxs)
      intro y hy
      rcases List.mem_cons.mp hy with rfl | hy'
      · exact le_of_lt hc
      · exact le_trans (hx y hy') (le_of_lt hc)
    · rw [if_neg hc]
      refine List.Pairwise.cons ?_ (ih hxs)
      intro y hy
      rcases mem_insertByCreatedDesc hy with rfl | hy'
      · exact Nat.le_of_not_lt hc
      · exact hx y hy'

/-- The sort used by job listing is descending by creation time. -/
theorem pairwise_sortByCreatedDesc (l : List AIGenerationJob) :
    (sortByCreatedDesc l).Pairwise
      (fun a b => b.created_at ≤ a.created_at) := by
  induction l with
  | nil => simp [sortByCreatedDesc]
  | cons x xs ih =>
    rw [sortByCreatedDesc, List.foldr_cons]
    exact pairwise_insertByCreatedDesc x ih

/-- C10: listing jobs of a missing or foreign campaign returns the empty
page with total 0 rather than raising; for an owned campaign it returns
the campaign's jobs ordered by creation time descending, skipping
(page - 1) * per_page rows, limited to per_page rows, together with the
total count of the campaign's jobs. -/
theorem list_jobs_pagination (db : Database) (cid oid page per_page : Nat) :
    (db.campaigns.find? (fun c => c.id == cid && c.organization_id == oid) =
        none →
      list_generation_jobs db cid oid page per_page = ([], 0)) ∧
    (∀ camp, db.campaigns.find?
        (fun c => c.id == cid && c.organization_id == oid) = some camp →
      list_generation_jobs db cid oid page per_page =
        (((sortByCreatedDesc (db.jobs.filter
            (fun j => j.campaign_id == cid))).drop
              ((page - 1) * per_page)).take per_page,
         (db.jobs.filter (fun j => j.campaign_id == cid)).length) ∧
      (list_generation_jobs db cid oid page per_page).1.length ≤ per_page ∧
      (list_generation_jobs db cid oid page per_page).1.Pairwise
        (fun a b => b.created_at ≤ a.created_at)) := by
  constructor
  · intro h
    simp [list_generation_jobs, h]
  · intro camp hc
    have heq : list_generation_jobs db cid oid page per_page =
        (((sortByCreatedDesc (db.jobs.filter
            (fun j => j.campaign_id == cid))).drop
              ((page - 1) * per_page)).take per_page,
         (db.jobs.filter (fun j => j.campaign_id == cid)).length) := by
      simp [list_generation_jobs, hc]
    refine ⟨heq, ?_, ?_⟩
    · rw [heq]
      simp only [List.length_take]
      exact min_le_left _ _
    · rw [heq]
      exact List.Pairwise.sublist
        ((List.take_sublist _ _).trans (List.drop_sublist _ _))
        (pairwise_sortByCreatedDesc _)

/-- C10 witness. -/
theorem list_jobs_pagination_witness :
    (sampleDb.campaigns.find? (fun c => c.id == 2 && c.organization_id == 7) =
      some sampleCampaign) ∧
    list_generation_jobs sampleDb 2 7 1 20 = ([completedJob], 1) ∧
    (list_generation_jobs sampleDb 2 7 1 20).1.length ≤ 20 :=
  ⟨rfl, by
    have h := ((list_jobs_pagination sampleDb 2 7 1 20).2 sampleCampaign rfl).1
    rw [h]
    rfl,
   ((list_jobs_pagination sampleDb 2 7 1 20).2 sampleCampaign rfl).2.1⟩

end EmailAI
